import Mathlib

/-!
Shallow embedding of the IGDB client (`IGDBService` in the repository's
service module).  The client is a single stateful object holding OAuth2
credentials, a cached access token with its expiry, and a response cache.
Network I/O is modelled by explicit oracle arguments (the outcome the
remote side would produce), and every operation returns its result
together with the updated state and a log counting the outbound requests
it actually issued.  Times are epoch milliseconds as `Int`.
-/

/-- A JSON value, as stored in the response cache (`data: any`). -/
inductive Json where
  | null
  | bool (b : Bool)
  | num (n : Int)
  | str (s : String)
  | arr (xs : List Json)
  | obj (fields : List (String × Json))
deriving Repr

/-- JavaScript truthiness of a JSON value: `null`, `false`, `0` and `""`
are falsy; every array and object is truthy. -/
def jsTruthy : Json → Bool
  | .null => false
  | .bool b => b
  | .num n => n != 0
  | .str s => s != ""
  | .arr _ => true
  | .obj _ => true

/-- Truthiness of the `accessToken: string | null` field: `null` and the
empty string are falsy. -/
def jsTruthyStr : Option String → Bool
  | none => false
  | some t => t != ""

/-- JS `String.prototype.trim()`: the string with leading and trailing
whitespace removed. -/
def jsTrim (s : String) : String :=
  ⟨((s.data.dropWhile Char.isWhitespace).reverse.dropWhile Char.isWhitespace).reverse⟩

/-- One entry of `requestCache`: `{ data: any; timestamp: number }`. -/
structure CacheEntry where
  data : Json
  timestamp : Int
deriving Repr

/-- The mutable state of an `IGDBService` instance.  The `Map` backing
`requestCache` is modelled as an association list in insertion order. -/
structure IGDBService where
  clientId : String
  clientSecret : String
  accessToken : Option String
  tokenExpiry : Int
  requestCache : List (String × CacheEntry)
deriving Repr

/-- `CACHE_DURATION = 5 * 60 * 1000` (milliseconds). -/
def CACHE_DURATION : Int := 5 * 60 * 1000

/-- JS `Map.get`. -/
def mapGet (m : List (String × CacheEntry)) (k : String) : Option CacheEntry :=
  (m.find? (fun p => p.1 == k)).map (fun p => p.2)

/-- JS `Map.set`: replace in place when the key exists, append otherwise. -/
def mapSet (m : List (String × CacheEntry)) (k : String) (v : CacheEntry) :
    List (String × CacheEntry) :=
  if m.any (fun p => p.1 == k) then
    m.map (fun p => if p.1 == k then (k, v) else p)
  else
    m ++ [(k, v)]

/-- The constructor: credentials read once from the environment, with
`|| ''` defaulting a missing variable to the empty string. -/
def IGDBService.new (envClientId envClientSecret : Option String) : IGDBService :=
  { clientId := envClientId.getD ""
    clientSecret := envClientSecret.getD ""
    accessToken := none
    tokenExpiry := 0
    requestCache := [] }

/-- The error taxonomy: each constructor corresponds to one `throw new
Error(...)` site of the client. -/
inductive IGDBError where
  | configurationError
  | authenticationError
  | rateLimitError
  | timeoutError
  | upstreamError (endpoint : String)
  | validationError (msg : String)
deriving Repr, DecidableEq

/-- The provider's reply to the token exchange (`IGDBTokenResponse`). -/
structure IGDBTokenResponse where
  access_token : String
  expires_in : Int
deriving Repr

/-- Outcome of the token-exchange POST: success with a parsed body, or
any transport / non-2xx failure. -/
inductive TokenExchangeOutcome where
  | success (r : IGDBTokenResponse)
  | failure
deriving Repr

/-- The observable shape of an axios error: `error.response?.status` and
`error.code`. -/
structure AxiosError where
  status : Option Nat
  code : Option String
deriving Repr

/-- Outcome of the data POST to `https://api.igdb.com/v4/<endpoint>`. -/
inductive HttpOutcome where
  | ok (data : Json)
  | err (e : AxiosError)
deriving Repr

/-- Outbound requests actually issued during one call. -/
structure ReqLog where
  tokenRequests : Nat
  dataRequests : Nat
deriving Repr, DecidableEq

namespace IGDBService

/-- `isConfigured(): boolean` — `!!(this.clientId && this.clientSecret)`. -/
def isConfigured (s : IGDBService) : Bool :=
  s.clientId != "" && s.clientSecret != ""

/-- `getAccessToken()`.  Fails fast when unconfigured; reuses the held
token while `this.accessToken && Date.now() < this.tokenExpiry`; otherwise
performs the client-credentials exchange (one token request), storing the
token and `Date.now() + expires_in * 1000 - 60000` on success.  Returns
(result, new state, number of token-exchange requests issued). -/
def getAccessToken (s : IGDBService) (now : Int) (exchange : TokenExchangeOutcome) :
    Except IGDBError String × IGDBService × Nat :=
  if s.clientId == "" || s.clientSecret == "" then
    (.error .configurationError, s, 0)
  else if jsTruthyStr s.accessToken && now < s.tokenExpiry then
    (.ok (s.accessToken.getD ""), s, 0)
  else
    match exchange with
    | .success r =>
        (.ok r.access_token,
         { s with accessToken := some r.access_token
                  tokenExpiry := now + r.expires_in * 1000 - 60000 }, 1)
    | .failure => (.error .authenticationError, s, 1)

/-- `getCacheKey(endpoint, query)` — the template literal
`` `${endpoint}:${query}` ``. -/
def getCacheKey (endpoint query : String) : String :=
  endpoint ++ ":" ++ query

/-- `getCachedData(cacheKey)`: the entry's `data` while
`Date.now() - cached.timestamp < CACHE_DURATION`, else the JS `null`. -/
def getCachedData (s : IGDBService) (now : Int) (cacheKey : String) : Json :=
  match mapGet s.requestCache cacheKey with
  | some cached => if now - cached.timestamp < CACHE_DURATION then cached.data else .null
  | none => .null

/-- `setCachedData(cacheKey, data)`. -/
def setCachedData (s : IGDBService) (now : Int) (cacheKey : String) (data : Json) :
    IGDBService :=
  { s with requestCache := mapSet s.requestCache cacheKey ⟨data, now⟩ }

/-- `makeRequest(endpoint, query)`.  Serves a truthy, fresh cache entry
with no network call (`if (cachedData) return cachedData`); otherwise
obtains a token, issues the single data POST, caches the body on success,
and classifies failures: 429 → rate limit, 401 → clear the held token and
authentication failure, `ECONNABORTED` → timeout, anything else → a
generic upstream failure naming the endpoint.  No retries. -/
def makeRequest (s : IGDBService) (now : Int) (endpoint query : String)
    (exchange : TokenExchangeOutcome) (outcome : HttpOutcome) :
    Except IGDBError Json × IGDBService × ReqLog :=
  let cacheKey := getCacheKey endpoint query
  let cachedData := getCachedData s now cacheKey
  if jsTruthy cachedData then
    (.ok cachedData, s, ⟨0, 0⟩)
  else
    match getAccessToken s now exchange with
    | (.error e, s', n) => (.error e, s', ⟨n, 0⟩)
    | (.ok _token, s', n) =>
        match outcome with
        | .ok data => (.ok data, setCachedData s' now cacheKey data, ⟨n, 1⟩)
        | .err e =>
            if e.status == some 429 then
              (.error .rateLimitError, s', ⟨n, 1⟩)
            else if e.status == some 401 then
              (.error .authenticationError,
               { s' with accessToken := none, tokenExpiry := 0 }, ⟨n, 1⟩)
            else if e.code == some "ECONNABORTED" then
              (.error .timeoutError, s', ⟨n, 1⟩)
            else
              (.error (.upstreamError endpoint), s', ⟨n, 1⟩)

/-- `makeCustomRequest(endpoint, query)` — public passthrough. -/
def makeCustomRequest (s : IGDBService) (now : Int) (endpoint query : String)
    (exchange : TokenExchangeOutcome) (outcome : HttpOutcome) :
    Except IGDBError Json × IGDBService × ReqLog :=
  makeRequest s now endpoint query exchange outcome

/-- The query template literal of `searchGames`, with `${query}` and
`${Math.min(limit, 50)}` interpolated. -/
def searchGamesQuery (query : String) (limit : Int) : String :=
  "\n      fields name,slug,summary,storyline,rating,rating_count,first_release_date,cover.url,genres.name,platforms.name;\n      where version_parent = null & category = 0 & name ~ *\"" ++
    query ++ "\"*;\n      limit " ++ toString (min limit 50) ++
    ";\n      sort rating desc;\n    "

/-- `searchGames(query, limit = 20)`: rejects a query that is empty after
trimming, otherwise delegates to `makeRequest('games', ...)`. -/
def searchGames (s : IGDBService) (now : Int) (query : String) (limit : Int)
    (exchange : TokenExchangeOutcome) (outcome : HttpOutcome) :
    Except IGDBError Json × IGDBService × ReqLog :=
  if jsTrim query == "" then
    (.error (.validationError "Search query cannot be empty"), s, ⟨0, 0⟩)
  else
    makeRequest s now "games" (searchGamesQuery query limit) exchange outcome

/-- The long field list shared verbatim by the detail-level queries
(`getPopularGames`, `getGameById`, `getGameBySlug`, `getGamesByGenre`,
`getGamesByPlatform`). -/
def detailFields : String :=
  "fields name,slug,summary,storyline,rating,rating_count,first_release_date,cover.url,genres.name,platforms.name,screenshots.url,videos.video_id,age_ratings.category,age_ratings.rating,game_modes.name,player_perspectives.name,websites.category,websites.url,similar_games.name,similar_games.cover.url,dlcs.name,dlcs.cover.url,expansions.name,expansions.cover.url,standalone_expansions.name,standalone_expansions.cover.url;"

/-- The query template literal of `getPopularGames`. -/
def popularGamesQuery (limit : Int) : String :=
  "\n      " ++ detailFields ++
    "\n      where rating_count > 100 & version_parent = null & category = 0;\n      sort rating desc;\n      limit " ++
    toString (min limit 50) ++ ";\n    "

/-- `getPopularGames(limit = 20)`. -/
def getPopularGames (s : IGDBService) (now : Int) (limit : Int)
    (exchange : TokenExchangeOutcome) (outcome : HttpOutcome) :
    Except IGDBError Json × IGDBService × ReqLog :=
  makeRequest s now "games" (popularGamesQuery limit) exchange outcome

/-- `games.length > 0 ? games[0] : null` on the endpoint's JSON-array
responses (a non-array body has no numeric `.length`, so the JS ternary
also yields `null` there). -/
def pickFirst : Json → Option Json
  | .arr (g :: _) => some g
  | _ => none

/-- The query template literal of `getGameById`. -/
def gameByIdQuery (id : Int) : String :=
  "\n      " ++ detailFields ++ "\n      where id = " ++ toString id ++ ";\n    "

/-- `getGameById(id)`: rejects `!id || id <= 0`, otherwise queries and
returns the first record, or the `null` absence marker on zero results. -/
def getGameById (s : IGDBService) (now : Int) (id : Int)
    (exchange : TokenExchangeOutcome) (outcome : HttpOutcome) :
    Except IGDBError (Option Json) × IGDBService × ReqLog :=
  if id = 0 ∨ id ≤ 0 then
    (.error (.validationError "Invalid game ID"), s, ⟨0, 0⟩)
  else
    match makeRequest s now "games" (gameByIdQuery id) exchange outcome with
    | (.ok games, s', log) => (.ok (pickFirst games), s', log)
    | (.error e, s', log) => (.error e, s', log)

/-- The query template literal of `getGameBySlug`. -/
def gameBySlugQuery (slug : String) : String :=
  "\n      " ++ detailFields ++ "\n      where slug = \"" ++ slug ++ "\";\n    "

/-- `getGameBySlug(slug)`: rejects a slug that is empty after trimming,
otherwise returns the first record or the `null` absence marker. -/
def getGameBySlug (s : IGDBService) (now : Int) (slug : String)
    (exchange : TokenExchangeOutcome) (outcome : HttpOutcome) :
    Except IGDBError (Option Json) × IGDBService × ReqLog :=
  if jsTrim slug == "" then
    (.error (.validationError "Game slug cannot be empty"), s, ⟨0, 0⟩)
  else
    match makeRequest s now "games" (gameBySlugQuery slug) exchange outcome with
    | (.ok games, s', log) => (.ok (pickFirst games), s', log)
    | (.error e, s', log) => (.error e, s', log)

/-- The fixed query of `getGenres` and `getPlatforms`. -/
def nameListQuery : String :=
  "\n      fields name;\n      sort name asc;\n      limit 50;\n    "

/-- `getGenres()`. -/
def getGenres (s : IGDBService) (now : Int)
    (exchange : TokenExchangeOutcome) (outcome : HttpOutcome) :
    Except IGDBError Json × IGDBService × ReqLog :=
  makeRequest s now "genres" nameListQuery exchange outcome

/-- `getPlatforms()`. -/
def getPlatforms (s : IGDBService) (now : Int)
    (exchange : TokenExchangeOutcome) (outcome : HttpOutcome) :
    Except IGDBError Json × IGDBService × ReqLog :=
  makeRequest s now "platforms" nameListQuery exchange outcome

/-- The query template literal of `getGamesByGenre`. -/
def gamesByGenreQuery (genreId limit : Int) : String :=
  "\n      " ++ detailFields ++ "\n      where genres = " ++ toString genreId ++
    " & version_parent = null & category = 0;\n      sort rating desc;\n      limit " ++
    toString (min limit 50) ++ ";\n    "

/-- `getGamesByGenre(genreId, limit = 20)`: rejects `!genreId || genreId <= 0`. -/
def getGamesByGenre (s : IGDBService) (now : Int) (genreId limit : Int)
    (exchange : TokenExchangeOutcome) (outcome : HttpOutcome) :
    Except IGDBError Json × IGDBService × ReqLog :=
  if genreId = 0 ∨ genreId ≤ 0 then
    (.error (.validationError "Invalid genre ID"), s, ⟨0, 0⟩)
  else
    makeRequest s now "games" (gamesByGenreQuery genreId limit) exchange outcome

/-- The query template literal of `getGamesByPlatform`. -/
def gamesByPlatformQuery (platformId limit : Int) : String :=
  "\n      " ++ detailFields ++ "\n      where platforms = " ++ toString platformId ++
    " & version_parent = null & category = 0;\n      sort rating desc;\n      limit " ++
    toString (min limit 50) ++ ";\n    "

/-- `getGamesByPlatform(platformId, limit = 20)`: rejects
`!platformId || platformId <= 0`. -/
def getGamesByPlatform (s : IGDBService) (now : Int) (platformId limit : Int)
    (exchange : TokenExchangeOutcome) (outcome : HttpOutcome) :
    Except IGDBError Json × IGDBService × ReqLog :=
  if platformId = 0 ∨ platformId ≤ 0 then
    (.error (.validationError "Invalid platform ID"), s, ⟨0, 0⟩)
  else
    makeRequest s now "games" (gamesByPlatformQuery platformId limit) exchange outcome

/-- `clearCache()`. -/
def clearCache (s : IGDBService) : IGDBService :=
  { s with requestCache := [] }

/-- `getCacheStats()`: `{ size: requestCache.size, keys: [...keys] }`. -/
def getCacheStats (s : IGDBService) : Nat × List String :=
  (s.requestCache.length, s.requestCache.map Prod.fst)

end IGDBService

/-! ### Helper lemmas -/

/-- A configured client with a truthy, unexpired token returns it with no
token-exchange request. -/
theorem getAccessToken_valid (s : IGDBService) (now : Int) (ex : TokenExchangeOutcome)
    (tok : String) (hId : s.clientId ≠ "") (hSec : s.clientSecret ≠ "")
    (hTok : s.accessToken = some tok) (hNe : tok ≠ "") (hNow : now < s.tokenExpiry) :
    s.getAccessToken now ex = (.ok tok, s, 0) := by
  simp [IGDBService.getAccessToken, hId, hSec, hTok, hNe, hNow, jsTruthyStr]

/-- An empty cache never yields cached data. -/
theorem getCachedData_nil (s : IGDBService) (now : Int) (k : String)
    (h : s.requestCache = []) : s.getCachedData now k = .null := by
  simp [IGDBService.getCachedData, mapGet, h]

/-- Evaluation of `makeRequest` on a cache miss with a valid held token and
a successful data POST. -/
theorem makeRequest_miss_ok (s : IGDBService) (now : Int) (endpoint query tok : String)
    (ex : TokenExchangeOutcome) (d : Json)
    (hId : s.clientId ≠ "") (hSec : s.clientSecret ≠ "")
    (hTok : s.accessToken = some tok) (hNe : tok ≠ "") (hNow : now < s.tokenExpiry)
    (hMiss : jsTruthy (s.getCachedData now (IGDBService.getCacheKey endpoint query)) = false) :
    s.makeRequest now endpoint query ex (.ok d) =
      (.ok d, s.setCachedData now (IGDBService.getCacheKey endpoint query) d, ⟨0, 1⟩) := by
  rw [IGDBService.makeRequest]
  simp only [hMiss, getAccessToken_valid s now ex tok hId hSec hTok hNe hNow]
  simp

/-! ### Claims -/

/-- C1: `getAccessToken` reuses the held token with no network call while
`now < tokenExpiry`; a successful exchange stores the returned token and
sets the expiry to `now + expires_in * 1000 - 60000`. -/
theorem getAccessToken_token_lifecycle (s : IGDBService) (now : Int) (t : String)
    (r : IGDBTokenResponse)
    (hId : s.clientId ≠ "") (hSec : s.clientSecret ≠ "") :
    (s.accessToken = some t → t ≠ "" → now < s.tokenExpiry →
      ∀ ex, s.getAccessToken now ex = (.ok t, s, 0)) ∧
    (s.tokenExpiry ≤ now →
      s.getAccessToken now (.success r) =
        (.ok r.access_token,
         { s with accessToken := some r.access_token
                  tokenExpiry := now + r.expires_in * 1000 - 60000 }, 1)) := by
  constructor
  · intro hTok hNe hNow ex
    exact getAccessToken_valid s now ex t hId hSec hTok hNe hNow
  · intro hExp
    have hNot : ¬ now < s.tokenExpiry := by omega
    simp [IGDBService.getAccessToken, hId, hSec, hNot]

/-- Witness for C1 at a concrete state: the held token `"tok"` is reused
at time 500 against expiry 1000, and after expiry a successful exchange
installs the new token with expiry `2000 + 3600 * 1000 - 60000`. -/
theorem getAccessToken_token_lifecycle_witness :
    IGDBService.getAccessToken ⟨"id", "sec", some "tok", 1000, []⟩ 500 .failure =
      (.ok "tok", ⟨"id", "sec", some "tok", 1000, []⟩, 0) ∧
    IGDBService.getAccessToken ⟨"id", "sec", some "tok", 1000, []⟩ 2000
        (.success ⟨"newtok", 3600⟩) =
      (.ok "newtok", ⟨"id", "sec", some "newtok", 2000 + 3600 * 1000 - 60000, []⟩, 1) :=
  ⟨(getAccessToken_token_lifecycle ⟨"id", "sec", some "tok", 1000, []⟩ 500 "tok"
      ⟨"newtok", 3600⟩ (by decide) (by decide)).1 rfl (by decide) (by decide) .failure,
   (getAccessToken_token_lifecycle ⟨"id", "sec", some "tok", 1000, []⟩ 2000 "tok"
      ⟨"newtok", 3600⟩ (by decide) (by decide)).2 (by decide)⟩

/-- C8: for a fixed endpoint, the cache key `endpoint ++ ":" ++ query` is
injective in the query payload: keys agree exactly when the queries do. -/
theorem getCacheKey_injective (e q1 q2 : String) :
    IGDBService.getCacheKey e q1 = IGDBService.getCacheKey e q2 ↔ q1 = q2 := by
  constructor
  · intro h
    have h2 : (e ++ ":" ++ q1).data = (e ++ ":" ++ q2).data :=
      congrArg String.data h
    simp only [String.data_append] at h2
    have h3 : q1.data = q2.data := by
      exact List.append_cancel_left h2
    cases q1
    cases q2
    exact congrArg String.mk h3
  · intro h
    rw [h]

/-- C6: `searchGames` rejects every query that is empty after trimming
with a ValidationError and no request; a non-empty query is passed to
`makeRequest` with the limit clamped to `min(limit, 50)`, so limit 1000
is sent as 50. -/
theorem searchGames_validates_and_clamps (s : IGDBService) (now : Int)
    (q tok : String) (limit : Int) (ex : TokenExchangeOutcome) (out : HttpOutcome)
    (hId : s.clientId ≠ "") (hSec : s.clientSecret ≠ "")
    (hTok : s.accessToken = some tok) (hNe : tok ≠ "") (hNow : now < s.tokenExpiry)
    (hCache : s.requestCache = []) :
    (jsTrim q = "" →
      s.searchGames now q limit ex out =
        (.error (.validationError "Search query cannot be empty"), s, ⟨0, 0⟩)) ∧
    (jsTrim q ≠ "" →
      s.searchGames now q limit ex out =
        s.makeRequest now "games" (IGDBService.searchGamesQuery q limit) ex out) ∧
    (jsTrim q ≠ "" → ∀ d, s.searchGames now q limit ex (.ok d) =
      (.ok d,
       s.setCachedData now
         (IGDBService.getCacheKey "games" (IGDBService.searchGamesQuery q limit)) d,
       ⟨0, 1⟩)) ∧
    IGDBService.searchGamesQuery q limit = IGDBService.searchGamesQuery q (min limit 50) ∧
    IGDBService.searchGamesQuery q 1000 = IGDBService.searchGamesQuery q 50 := by
  refine ⟨fun hq => by simp [IGDBService.searchGames, hq],
          fun hq => by simp [IGDBService.searchGames, hq],
          fun hq d => ?_, ?_, ?_⟩
  · rw [IGDBService.searchGames]
    simp only [hq, beq_iff_eq, if_neg hq]
    exact makeRequest_miss_ok s now "games" (IGDBService.searchGamesQuery q limit) tok ex d
      hId hSec hTok hNe hNow
      (by rw [getCachedData_nil s now _ hCache]; rfl)
  · have hmin : min limit 50 = min (min limit 50) 50 := by omega
    rw [IGDBService.searchGamesQuery, IGDBService.searchGamesQuery, ← hmin]
  · have hmin : min (1000 : Int) 50 = min (50 : Int) 50 := by decide
    rw [IGDBService.searchGamesQuery, IGDBService.searchGamesQuery, hmin]

/-- Witness for C6: `searchGames("   ")` fails with ValidationError and no
request on a concrete configured client, and the query for limit 1000
equals the query for limit 50. -/
theorem searchGames_validates_and_clamps_witness :
    IGDBService.searchGames ⟨"i", "s", some "t", 1, []⟩ 0 "   " 20 .failure (.ok .null) =
      (.error (.validationError "Search query cannot be empty"),
       ⟨"i", "s", some "t", 1, []⟩, ⟨0, 0⟩) ∧
    IGDBService.searchGamesQuery "zelda" 1000 = IGDBService.searchGamesQuery "zelda" 50 :=
  ⟨(searchGames_validates_and_clamps ⟨"i", "s", some "t", 1, []⟩ 0 "   " "t" 20 .failure
      (.ok .null) (by decide) (by decide) rfl (by decide) (by decide) rfl).1 (by decide),
   (searchGames_validates_and_clamps ⟨"i", "s", some "t", 1, []⟩ 0 "zelda" "t" 1000 .failure
      (.ok .null) (by decide) (by decide) rfl (by decide) (by decide) rfl).2.2.2.2⟩

/-- C7: `getGameById` rejects every non-positive id with a
ValidationError; for a positive id it returns the head of the returned
record array — `none` (the absence marker) on zero records, the single
first record otherwise, never the array itself — and likewise
`getGameBySlug` for a slug that is non-empty after trimming. -/
theorem getGameById_single_record (s : IGDBService) (now : Int) (id : Int)
    (slug tok : String) (ex : TokenExchangeOutcome)
    (hId : s.clientId ≠ "") (hSec : s.clientSecret ≠ "")
    (hTok : s.accessToken = some tok) (hNe : tok ≠ "") (hNow : now < s.tokenExpiry)
    (hCache : s.requestCache = []) :
    (id ≤ 0 → ∀ ex2 out, s.getGameById now id ex2 out =
      (.error (.validationError "Invalid game ID"), s, ⟨0, 0⟩)) ∧
    (0 < id → ∀ xs : List Json, s.getGameById now id ex (.ok (.arr xs)) =
      (.ok xs.head?,
       s.setCachedData now
         (IGDBService.getCacheKey "games" (IGDBService.gameByIdQuery id)) (.arr xs),
       ⟨0, 1⟩)) ∧
    (jsTrim slug ≠ "" → ∀ xs : List Json, s.getGameBySlug now slug ex (.ok (.arr xs)) =
      (.ok xs.head?,
       s.setCachedData now
         (IGDBService.getCacheKey "games" (IGDBService.gameBySlugQuery slug)) (.arr xs),
       ⟨0, 1⟩)) := by
  refine ⟨fun hid ex2 out => ?_, fun hid xs => ?_, fun hs xs => ?_⟩
  · have : id = 0 ∨ id ≤ 0 := Or.inr hid
    simp [IGDBService.getGameById, this]
  · have hcond : ¬ (id = 0 ∨ id ≤ 0) := by omega
    rw [IGDBService.getGameById, if_neg hcond]
    rw [makeRequest_miss_ok s now "games" (IGDBService.gameByIdQuery id) tok ex (.arr xs)
      hId hSec hTok hNe hNow (by rw [getCachedData_nil s now _ hCache]; rfl)]
    cases xs <;> simp [IGDBService.pickFirst]
  · rw [IGDBService.getGameBySlug]
    simp only [beq_iff_eq, if_neg hs]
    rw [makeRequest_miss_ok s now "games" (IGDBService.gameBySlugQuery slug) tok ex (.arr xs)
      hId hSec hTok hNe hNow (by rw [getCachedData_nil s now _ hCache]; rfl)]
    cases xs <;> simp [IGDBService.pickFirst]

/-- Witness for C7 at a concrete client: id 0 is rejected; id 7 with a
zero-record response yields the absence marker `none`; id 7 with a
one-record response yields that single record. -/
theorem getGameById_single_record_witness :
    IGDBService.getGameById ⟨"i", "s", some "t", 1, []⟩ 0 0 .failure (.ok .null) =
      (.error (.validationError "Invalid game ID"), ⟨"i", "s", some "t", 1, []⟩, ⟨0, 0⟩) ∧
    (IGDBService.getGameById ⟨"i", "s", some "t", 1, []⟩ 0 7 .failure
        (.ok (.arr []))).1 = .ok none ∧
    (IGDBService.getGameById ⟨"i", "s", some "t", 1, []⟩ 0 7 .failure
        (.ok (.arr [.num 3]))).1 = .ok (some (.num 3)) :=
  ⟨(getGameById_single_record ⟨"i", "s", some "t", 1, []⟩ 0 0 "x" "t" .failure
      (by decide) (by decide) rfl (by decide) (by decide) rfl).1 (by decide) .failure (.ok .null),
   by
     rw [(getGameById_single_record ⟨"i", "s", some "t", 1, []⟩ 0 7 "x" "t" .failure
       (by decide) (by decide) rfl (by decide) (by decide) rfl).2.1 (by decide) []]
     rfl,
   by
     rw [(getGameById_single_record ⟨"i", "s", some "t", 1, []⟩ 0 7 "x" "t" .failure
       (by decide) (by decide) rfl (by decide) (by decide) rfl).2.1 (by decide) [.num 3]]
     rfl⟩

/-- Every `getAccessToken` call leaves the response cache untouched. -/
theorem getAccessToken_cache_invariant (s : IGDBService) (now : Int)
    (ex : TokenExchangeOutcome) :
    ((s.getAccessToken now ex).2.1).requestCache = s.requestCache := by
  unfold IGDBService.getAccessToken
  split
  · rfl
  · split
    · rfl
    · cases ex <;> rfl

/-- A data request that ends in any axios error never writes to the cache. -/
theorem makeRequest_err_cache_invariant (s : IGDBService) (now : Int)
    (endpoint query : String) (ex : TokenExchangeOutcome) (err : AxiosError) :
    ((s.makeRequest now endpoint query ex (.err err)).2.1).requestCache =
      s.requestCache := by
  rw [IGDBService.makeRequest]
  cases hc : jsTruthy (s.getCachedData now (IGDBService.getCacheKey endpoint query))
  · simp only [hc, Bool.false_eq_true, if_false]
    rcases hga : s.getAccessToken now ex with ⟨res, s2, n⟩
    have hs2 : s2.requestCache = s.requestCache := by
      have := getAccessToken_cache_invariant s now ex
      rw [hga] at this
      exact this
    cases res
    · simpa using hs2
    · simp only []
      split
      · simpa using hs2
      · split
        · simpa using hs2
        · split
          · simpa using hs2
          · simpa using hs2
  · simp [hc]

/-- C3: a 401 from the data endpoint clears the held token and its expiry
and raises AuthenticationError after exactly one (unretried) data
request; the immediately following `getAccessToken` call on the cleared
state performs a fresh token exchange instead of reusing a token. -/
theorem makeRequest_401_clears_token (s : IGDBService) (now now2 : Int)
    (endpoint query tok : String) (c : Option String) (ex : TokenExchangeOutcome)
    (r : IGDBTokenResponse)
    (hId : s.clientId ≠ "") (hSec : s.clientSecret ≠ "")
    (hTok : s.accessToken = some tok) (hNe : tok ≠ "") (hNow : now < s.tokenExpiry)
    (hMiss : jsTruthy (s.getCachedData now (IGDBService.getCacheKey endpoint query)) = false) :
    s.makeRequest now endpoint query ex (.err ⟨some 401, c⟩) =
      (.error .authenticationError,
       { s with accessToken := none, tokenExpiry := 0 }, ⟨0, 1⟩) ∧
    IGDBService.getAccessToken { s with accessToken := none, tokenExpiry := 0 }
        now2 (.success r) =
      (.ok r.access_token,
       { s with accessToken := some r.access_token
                tokenExpiry := now2 + r.expires_in * 1000 - 60000 }, 1) := by
  constructor
  · rw [IGDBService.makeRequest]
    simp only [hMiss, Bool.false_eq_true, if_false,
      getAccessToken_valid s now ex tok hId hSec hTok hNe hNow]
    simp
  · simp [IGDBService.getAccessToken, hId, hSec, jsTruthyStr]

/-- Witness for C3 at a concrete client: the 401 clears the token and the
follow-up call at time 0 exchanges credentials afresh. -/
theorem makeRequest_401_clears_token_witness :
    IGDBService.makeRequest ⟨"i", "s", some "t", 9, []⟩ 2 "games" "q" .failure
        (.err ⟨some 401, none⟩) =
      (.error .authenticationError, ⟨"i", "s", none, 0, []⟩, ⟨0, 1⟩) ∧
    IGDBService.getAccessToken ⟨"i", "s", none, 0, []⟩ 100 (.success ⟨"t2", 3600⟩) =
      (.ok "t2", ⟨"i", "s", some "t2", 100 + 3600 * 1000 - 60000, []⟩, 1) :=
  makeRequest_401_clears_token ⟨"i", "s", some "t", 9, []⟩ 2 100 "games" "q" "t" none
    .failure ⟨"t2", 3600⟩ (by decide) (by decide) rfl (by decide) (by decide) rfl

/-- Evaluation of `makeRequest` for an unconfigured client whose cache is
empty: ConfigurationError with no token and no data request. -/
theorem makeRequest_unconfigured (s : IGDBService) (now : Int) (endpoint query : String)
    (ex : TokenExchangeOutcome) (out : HttpOutcome)
    (hCfg : s.clientId = "" ∨ s.clientSecret = "") (hCache : s.requestCache = []) :
    s.makeRequest now endpoint query ex out = (.error .configurationError, s, ⟨0, 0⟩) := by
  rw [IGDBService.makeRequest]
  rw [getCachedData_nil s now _ hCache]
  have hga : s.getAccessToken now ex = (.error .configurationError, s, 0) := by
    rcases hCfg with h | h <;> simp [IGDBService.getAccessToken, h]
  simp [hga, jsTruthy]

/-- C4: with either credential empty, `isConfigured()` is false and every
authenticated method — on inputs passing its own validation — fails with
ConfigurationError while issuing no token and no data request (the
freshly constructed client always starts with an empty cache). -/
theorem unconfigured_fails_fast (s : IGDBService)
    (hCfg : s.clientId = "" ∨ s.clientSecret = "") (hCache : s.requestCache = []) :
    s.isConfigured = false ∧
    (∀ envId envSec : Option String, (IGDBService.new envId envSec).requestCache = []) ∧
    (∀ now q limit ex out, jsTrim q ≠ "" →
      s.searchGames now q limit ex out = (.error .configurationError, s, ⟨0, 0⟩)) ∧
    (∀ now limit ex out,
      s.getPopularGames now limit ex out = (.error .configurationError, s, ⟨0, 0⟩)) ∧
    (∀ now id ex out, 0 < id →
      s.getGameById now id ex out = (.error .configurationError, s, ⟨0, 0⟩)) ∧
    (∀ now slug ex out, jsTrim slug ≠ "" →
      s.getGameBySlug now slug ex out = (.error .configurationError, s, ⟨0, 0⟩)) ∧
    (∀ now gid limit ex out, 0 < gid →
      s.getGamesByGenre now gid limit ex out = (.error .configurationError, s, ⟨0, 0⟩)) ∧
    (∀ now pid limit ex out, 0 < pid →
      s.getGamesByPlatform now pid limit ex out = (.error .configurationError, s, ⟨0, 0⟩)) ∧
    (∀ now ex out, s.getGenres now ex out = (.error .configurationError, s, ⟨0, 0⟩)) ∧
    (∀ now ex out, s.getPlatforms now ex out = (.error .configurationError, s, ⟨0, 0⟩)) ∧
    (∀ now e q ex out,
      s.makeCustomRequest now e q ex out = (.error .configurationError, s, ⟨0, 0⟩)) := by
  refine ⟨?_, fun envId envSec => rfl, fun now q limit ex out hq => ?_, fun now limit ex out => ?_,
    fun now id ex out hid => ?_, fun now slug ex out hs => ?_, fun now gid limit ex out hg => ?_,
    fun now pid limit ex out hp => ?_, fun now ex out => ?_, fun now ex out => ?_,
    fun now e q ex out => ?_⟩
  · rcases hCfg with h | h <;> simp [IGDBService.isConfigured, h]
  · rw [IGDBService.searchGames]
    simp only [beq_iff_eq, if_neg hq]
    exact makeRequest_unconfigured s now _ _ ex out hCfg hCache
  · exact makeRequest_unconfigured s now _ _ ex out hCfg hCache
  · have hcond : ¬ (id = 0 ∨ id ≤ 0) := by omega
    rw [IGDBService.getGameById, if_neg hcond,
      makeRequest_unconfigured s now _ _ ex out hCfg hCache]
  · rw [IGDBService.getGameBySlug]
    simp only [beq_iff_eq, if_neg hs]
    rw [makeRequest_unconfigured s now _ _ ex out hCfg hCache]
  · have hcond : ¬ (gid = 0 ∨ gid ≤ 0) := by omega
    rw [IGDBService.getGamesByGenre, if_neg hcond]
    exact makeRequest_unconfigured s now _ _ ex out hCfg hCache
  · have hcond : ¬ (pid = 0 ∨ pid ≤ 0) := by omega
    rw [IGDBService.getGamesByPlatform, if_neg hcond]
    exact makeRequest_unconfigured s now _ _ ex out hCfg hCache
  · exact makeRequest_unconfigured s now _ _ ex out hCfg hCache
  · exact makeRequest_unconfigured s now _ _ ex out hCfg hCache
  · exact makeRequest_unconfigured s now _ _ ex out hCfg hCache

/-- Witness for C4 on the client constructed with a missing client id:
it reports unconfigured and a concrete `searchGames` call fails with
ConfigurationError after zero outbound requests. -/
theorem unconfigured_fails_fast_witness :
    IGDBService.isConfigured (IGDBService.new none (some "sec")) = false ∧
    IGDBService.searchGames (IGDBService.new none (some "sec")) 0 "zelda" 20 .failure
        (.ok (.arr [])) =
      (.error .configurationError, IGDBService.new none (some "sec"), ⟨0, 0⟩) :=
  ⟨(unconfigured_fails_fast (IGDBService.new none (some "sec")) (Or.inl rfl) rfl).1,
   (unconfigured_fails_fast (IGDBService.new none (some "sec")) (Or.inl rfl) rfl).2.2.1
     0 "zelda" 20 .failure (.ok (.arr [])) (by decide)⟩

/-- C5: a 429 from the data endpoint raises RateLimitError after exactly
one data request, and no axios-error outcome of any data request ever
populates the cache (responses are stored only on success). -/
theorem makeRequest_429_no_cache (s : IGDBService) (now : Int)
    (endpoint query tok : String) (c : Option String) (ex : TokenExchangeOutcome)
    (hId : s.clientId ≠ "") (hSec : s.clientSecret ≠ "")
    (hTok : s.accessToken = some tok) (hNe : tok ≠ "") (hNow : now < s.tokenExpiry)
    (hMiss : jsTruthy (s.getCachedData now (IGDBService.getCacheKey endpoint query)) = false) :
    s.makeRequest now endpoint query ex (.err ⟨some 429, c⟩) =
      (.error .rateLimitError, s, ⟨0, 1⟩) ∧
    (∀ (s2 : IGDBService) (now2 : Int) (e2 q2 : String) (ex2 : TokenExchangeOutcome)
      (err : AxiosError),
      ((s2.makeRequest now2 e2 q2 ex2 (.err err)).2.1).requestCache = s2.requestCache) := by
  constructor
  · rw [IGDBService.makeRequest]
    simp only [hMiss, Bool.false_eq_true, if_false,
      getAccessToken_valid s now ex tok hId hSec hTok hNe hNow]
    simp
  · exact fun s2 now2 e2 q2 ex2 err => makeRequest_err_cache_invariant s2 now2 e2 q2 ex2 err

/-- Witness for C5 at a concrete client with an empty cache: the 429 call
raises RateLimitError and leaves the cache empty. -/
theorem makeRequest_429_no_cache_witness :
    IGDBService.makeRequest ⟨"i", "s", some "t", 9, []⟩ 2 "games" "q" .failure
        (.err ⟨some 429, none⟩) =
      (.error .rateLimitError, ⟨"i", "s", some "t", 9, []⟩, ⟨0, 1⟩) :=
  (makeRequest_429_no_cache ⟨"i", "s", some "t", 9, []⟩ 2 "games" "q" "t" none .failure
    (by decide) (by decide) rfl (by decide) (by decide) rfl).1

/-- C2: starting from an empty cache, a first successful request stores
its payload under the key at the request time and counts as the only
data request; a repeat of the same endpoint and query strictly within
`CACHE_DURATION` returns the identical payload with zero outbound
requests, while a repeat at or beyond `CACHE_DURATION` issues a new data
request; the stored entry serves exactly while `now - t1 < CACHE_DURATION`. -/
theorem makeRequest_cache_window (s : IGDBService) (t1 t2 : Int) (e q tok : String)
    (xs : List Json) (ex1 ex2 : TokenExchangeOutcome)
    (hId : s.clientId ≠ "") (hSec : s.clientSecret ≠ "")
    (hTok : s.accessToken = some tok) (hNe : tok ≠ "") (hT1 : t1 < s.tokenExpiry)
    (hT2 : t2 < s.tokenExpiry) (hCache : s.requestCache = []) :
    s.makeRequest t1 e q ex1 (.ok (.arr xs)) =
      (.ok (.arr xs),
       { s with requestCache := [(IGDBService.getCacheKey e q, ⟨.arr xs, t1⟩)] },
       ⟨0, 1⟩) ∧
    (∀ now, IGDBService.getCachedData
        { s with requestCache := [(IGDBService.getCacheKey e q, ⟨.arr xs, t1⟩)] }
        now (IGDBService.getCacheKey e q) =
      if now - t1 < CACHE_DURATION then Json.arr xs else Json.null) ∧
    (t2 - t1 < CACHE_DURATION → ∀ out2,
      IGDBService.makeRequest
          { s with requestCache := [(IGDBService.getCacheKey e q, ⟨.arr xs, t1⟩)] }
          t2 e q ex2 out2 =
        (.ok (.arr xs),
         { s with requestCache := [(IGDBService.getCacheKey e q, ⟨.arr xs, t1⟩)] },
         ⟨0, 0⟩)) ∧
    (CACHE_DURATION ≤ t2 - t1 → ∀ d2,
      IGDBService.makeRequest
          { s with requestCache := [(IGDBService.getCacheKey e q, ⟨.arr xs, t1⟩)] }
          t2 e q ex2 (.ok d2) =
        (.ok d2,
         { s with requestCache := [(IGDBService.getCacheKey e q, ⟨d2, t2⟩)] },
         ⟨0, 1⟩)) := by
  refine ⟨?_, fun now => ?_, fun hlt out2 => ?_, fun hge d2 => ?_⟩
  · rw [makeRequest_miss_ok s t1 e q tok ex1 (.arr xs) hId hSec hTok hNe hT1
      (by rw [getCachedData_nil s t1 _ hCache]; rfl)]
    simp [IGDBService.setCachedData, mapSet, hCache]
  · simp [IGDBService.getCachedData, mapGet]
  · have hhit : IGDBService.getCachedData
        { s with requestCache := [(IGDBService.getCacheKey e q, ⟨.arr xs, t1⟩)] }
        t2 (IGDBService.getCacheKey e q) = .arr xs := by
      simp [IGDBService.getCachedData, mapGet, hlt]
    rw [IGDBService.makeRequest]
    simp [hhit, jsTruthy]
  · have hmiss : IGDBService.getCachedData
        { s with requestCache := [(IGDBService.getCacheKey e q, ⟨.arr xs, t1⟩)] }
        t2 (IGDBService.getCacheKey e q) = .null := by
      have : ¬ t2 - t1 < CACHE_DURATION := by omega
      simp [IGDBService.getCachedData, mapGet, this]
    rw [makeRequest_miss_ok
      { s with requestCache := [(IGDBService.getCacheKey e q, ⟨.arr xs, t1⟩)] }
      t2 e q tok ex2 d2 hId hSec hTok hNe hT2 (by rw [hmiss]; rfl)]
    simp [IGDBService.setCachedData, mapSet]

/-- Witness for C2 at a concrete client: the first call at time 0 caches
and counts one data request; the repeat at time 1 is served from cache
with zero requests; the repeat at time 300000 issues a fresh data
request and overwrites the entry. -/
theorem makeRequest_cache_window_witness :
    IGDBService.makeRequest ⟨"i", "s", some "t", 400000, []⟩ 0 "games" "q" .failure
        (.ok (.arr [])) =
      (.ok (.arr []),
       ⟨"i", "s", some "t", 400000, [("games:q", ⟨.arr [], 0⟩)]⟩, ⟨0, 1⟩) ∧
    IGDBService.makeRequest ⟨"i", "s", some "t", 400000, [("games:q", ⟨.arr [], 0⟩)]⟩
        1 "games" "q" .failure (.err ⟨none, none⟩) =
      (.ok (.arr []),
       ⟨"i", "s", some "t", 400000, [("games:q", ⟨.arr [], 0⟩)]⟩, ⟨0, 0⟩) ∧
    IGDBService.makeRequest ⟨"i", "s", some "t", 400000, [("games:q", ⟨.arr [], 0⟩)]⟩
        300000 "games" "q" .failure (.ok (.num 2)) =
      (.ok (.num 2),
       ⟨"i", "s", some "t", 400000, [("games:q", ⟨.num 2, 300000⟩)]⟩, ⟨0, 1⟩) :=
  ⟨(makeRequest_cache_window ⟨"i", "s", some "t", 400000, []⟩ 0 1 "games" "q" "t" []
      .failure .failure (by decide) (by decide) rfl (by decide) (by decide) (by decide)
      rfl).1,
   (makeRequest_cache_window ⟨"i", "s", some "t", 400000, []⟩ 0 1 "games" "q" "t" []
      .failure .failure (by decide) (by decide) rfl (by decide) (by decide) (by decide)
      rfl).2.2.1 (by decide) (.err ⟨none, none⟩),
   (makeRequest_cache_window ⟨"i", "s", some "t", 400000, []⟩ 0 300000 "games" "q" "t" []
      .failure .failure (by decide) (by decide) rfl (by decide) (by decide) (by decide)
      rfl).2.2.2 (by decide) (.num 2)⟩

/-- C9: `clearCache()` empties the cache — `getCacheStats()` then reports
size 0 with no keys and every lookup misses — so a subsequent request on
the cleared state issues a new outbound data request. -/
theorem clearCache_empties (s : IGDBService) (now : Int) (e q tok : String)
    (ex : TokenExchangeOutcome) (d : Json)
    (hId : s.clientId ≠ "") (hSec : s.clientSecret ≠ "")
    (hTok : s.accessToken = some tok) (hNe : tok ≠ "") (hNow : now < s.tokenExpiry) :
    IGDBService.getCacheStats (IGDBService.clearCache s) = (0, []) ∧
    (∀ now2 k, IGDBService.getCachedData (IGDBService.clearCache s) now2 k = .null) ∧
    IGDBService.makeRequest (IGDBService.clearCache s) now e q ex (.ok d) =
      (.ok d,
       { s with requestCache := [(IGDBService.getCacheKey e q, ⟨d, now⟩)] },
       ⟨0, 1⟩) := by
  refine ⟨rfl, fun now2 k => getCachedData_nil _ now2 k rfl, ?_⟩
  rw [makeRequest_miss_ok (IGDBService.clearCache s) now e q tok ex d hId hSec hTok hNe
    hNow (by rw [getCachedData_nil _ now _ rfl]; rfl)]
  simp [IGDBService.setCachedData, IGDBService.clearCache, mapSet]

/-- Witness for C9 at a concrete client holding one cache entry: after
`clearCache` the stats are `(0, [])` and the identical query re-issues a
data request. -/
theorem clearCache_empties_witness :
    IGDBService.getCacheStats
        (IGDBService.clearCache ⟨"i", "s", some "t", 9, [("games:q", ⟨.arr [], 0⟩)]⟩) =
      (0, []) ∧
    IGDBService.makeRequest
        (IGDBService.clearCache ⟨"i", "s", some "t", 9, [("games:q", ⟨.arr [], 0⟩)]⟩)
        2 "games" "q" .failure (.ok (.arr [])) =
      (.ok (.arr []), ⟨"i", "s", some "t", 9, [("games:q", ⟨.arr [], 2⟩)]⟩, ⟨0, 1⟩) :=
  ⟨(clearCache_empties ⟨"i", "s", some "t", 9, [("games:q", ⟨.arr [], 0⟩)]⟩ 2 "games" "q"
      "t" .failure (.arr []) (by decide) (by decide) rfl (by decide) (by decide)).1,
   (clearCache_empties ⟨"i", "s", some "t", 9, [("games:q", ⟨.arr [], 0⟩)]⟩ 2 "games" "q"
      "t" .failure (.arr []) (by decide) (by decide) rfl (by decide) (by decide)).2.2⟩

/-- C10: the cache-hit test is on the payload's truthiness, not entry
existence: a falsy stored payload (for example the JS `null`) inside the
5-minute window is treated as a miss and a new data request is issued,
while a truthy stored payload in the window is served with no request —
and every array payload, the empty array included, is truthy. -/
theorem makeRequest_truthiness_gate (s : IGDBService) (now t0 : Int)
    (e q tok : String) (payload : Json) (ex : TokenExchangeOutcome)
    (hCache : s.requestCache = [(IGDBService.getCacheKey e q, ⟨payload, t0⟩)])
    (hFresh : now - t0 < CACHE_DURATION)
    (hId : s.clientId ≠ "") (hSec : s.clientSecret ≠ "")
    (hTok : s.accessToken = some tok) (hNe : tok ≠ "") (hNow : now < s.tokenExpiry) :
    (jsTruthy payload = false → ∀ d, s.makeRequest now e q ex (.ok d) =
      (.ok d,
       { s with requestCache := [(IGDBService.getCacheKey e q, ⟨d, now⟩)] },
       ⟨0, 1⟩)) ∧
    (jsTruthy payload = true → ∀ out, s.makeRequest now e q ex out =
      (.ok payload, s, ⟨0, 0⟩)) ∧
    (∀ xs : List Json, jsTruthy (.arr xs) = true) := by
  have hcd : s.getCachedData now (IGDBService.getCacheKey e q) = payload := by
    simp [IGDBService.getCachedData, mapGet, hCache, hFresh]
  refine ⟨fun hfalsy d => ?_, fun htruthy out => ?_, fun xs => rfl⟩
  · rw [makeRequest_miss_ok s now e q tok ex d hId hSec hTok hNe hNow
      (by rw [hcd]; exact hfalsy)]
    simp [IGDBService.setCachedData, mapSet, hCache]
  · rw [IGDBService.makeRequest]
    simp [hcd, htruthy]

/-- Witness for C10 at a concrete client whose cache holds a fresh entry
with the falsy payload `null`: the call inside the validity window still
issues a data request and overwrites the entry. -/
theorem makeRequest_truthiness_gate_witness :
    IGDBService.makeRequest ⟨"i", "s", some "t", 9, [("games:q", ⟨.null, 0⟩)]⟩ 2
        "games" "q" .failure (.ok (.arr [])) =
      (.ok (.arr []), ⟨"i", "s", some "t", 9, [("games:q", ⟨.arr [], 2⟩)]⟩, ⟨0, 1⟩) :=
  (makeRequest_truthiness_gate ⟨"i", "s", some "t", 9, [("games:q", ⟨.null, 0⟩)]⟩ 2 0
    "games" "q" "t" .null .failure rfl (by decide) (by decide) (by decide) rfl
    (by decide) (by decide)).1 rfl (.arr [])
